import Mathlib

/-!
Verification of the artifact-provisioning script src/infra/flink/download-jars.sh.

The script is modelled by explicit state passing: the destination directory is
an association list from filenames to file contents, the network is an oracle
from URLs to transfer results, and the top-level control flow (help flag,
missing-argument check, destination validation, the six download calls under
set -e, and the final report) is a pure function from the invocation argument
and the environment to an observable result record.
-/

namespace DownloadJars

/-- Contents of the destination directory: filename paired with file content. -/
abbrev FS := List (String × String)

/-- Look up the content of a file in the destination directory (models the
test [ -f DEST_PATH/filename ] and reads of that file). -/
def fsLookup : FS → String → Option String
  | [], _ => none
  | p :: rest, k => if p.1 = k then some p.2 else fsLookup rest k

/-- Remove a file from the destination directory (models rm -f). -/
def fsRemove : FS → String → FS
  | [], _ => []
  | p :: rest, k => if p.1 = k then fsRemove rest k else p :: fsRemove rest k

/-- Write a file into the destination directory (models wget -O creating or
truncating the output path). -/
def fsWrite (fs : FS) (k v : String) : FS := (k, v) :: fsRemove fs k

/-- Result of one network transfer: either the full artifact content arrives,
or a transport error occurs after some leftover bytes were already written to
the output file that wget -O opened. -/
inductive NetResult where
  | success (content : String)
  | failure (leftover : String)
deriving Repr, DecidableEq

/-- The network oracle: what a wget of each URL would produce on this run. -/
abbrev Net := String → NetResult

/-- Outcome recorded for one manifest entry. -/
inductive Outcome where
  | alreadyPresent
  | downloaded
  | failed
deriving Repr, DecidableEq

/-- A manifest entry: the download URL and the destination filename, exactly
the two arguments each download_jar call receives. -/
structure Entry where
  url : String
  filename : String
deriving Repr, DecidableEq

/-- Result of one download_jar call: the recorded outcome, the destination
directory afterwards, and how many network transfers were attempted. -/
structure StepResult where
  outcome : Outcome
  fs : FS
  netCalls : Nat
deriving Repr, DecidableEq

/-- Embedding of the function download_jar (script lines 68-91): if the file
already exists it is skipped with no network access; otherwise wget fetches
the URL into DEST_PATH/filename, and on transfer failure the output file,
including any leftover bytes wget wrote, is removed by rm -f before the
failing status is returned. -/
def download_jar (net : Net) (fs : FS) (e : Entry) : StepResult :=
  match fsLookup fs e.filename with
  | some _ => { outcome := .alreadyPresent, fs := fs, netCalls := 0 }
  | none =>
    match net e.url with
    | .success content =>
      { outcome := .downloaded, fs := fsWrite fs e.filename content, netCalls := 1 }
    | .failure leftover =>
      { outcome := .failed, fs := fsRemove (fsWrite fs e.filename leftover) e.filename,
        netCalls := 1 }

/-- Result of the straight-line sequence of download_jar calls. -/
structure LoopResult where
  outcomes : List Outcome
  fs : FS
  netCalls : Nat
  aborted : Bool
deriving Repr, DecidableEq

/-- The sequence of download_jar calls (script lines 100-128) under set -e
(script line 7): each call is a bare top-level command, so a non-zero return
from download_jar terminates the script at once and later entries never run. -/
def processEntries (net : Net) : List Entry → FS → LoopResult
  | [], fs => { outcomes := [], fs := fs, netCalls := 0, aborted := false }
  | e :: rest, fs =>
    if (download_jar net fs e).outcome = .failed then
      { outcomes := [Outcome.failed], fs := (download_jar net fs e).fs,
        netCalls := (download_jar net fs e).netCalls, aborted := true }
    else
      { outcomes := (download_jar net fs e).outcome ::
          (processEntries net rest (download_jar net fs e).fs).outcomes,
        fs := (processEntries net rest (download_jar net fs e).fs).fs,
        netCalls := (download_jar net fs e).netCalls +
          (processEntries net rest (download_jar net fs e).fs).netCalls,
        aborted := (processEntries net rest (download_jar net fs e).fs).aborted }

/-- Version strings and repository base of the script (lines 43-46). -/
def ICEBERG_VERSION : String := "1.9.1"

/-- Hadoop version (script line 44). -/
def HADOOP_VERSION : String := "3.3.4"

/-- Flink version (script line 45). -/
def FLINK_VERSION : String := "1.20.0"

/-- Maven repository base URL (script line 46). -/
def MAVEN_REPO : String := "https://repo1.maven.org/maven2"

/-- The six download_jar calls of the script (lines 100-128), with the URL and
filename strings interpolated exactly as the shell does. -/
def manifest : List Entry :=
  [ { url := MAVEN_REPO ++ "/org/apache/iceberg/iceberg-flink-runtime-1.20/" ++
        ICEBERG_VERSION ++ "/iceberg-flink-runtime-1.20-" ++ ICEBERG_VERSION ++ ".jar",
      filename := "iceberg-flink-runtime-1.20-" ++ ICEBERG_VERSION ++ ".jar" },
    { url := MAVEN_REPO ++ "/org/apache/flink/flink-s3-fs-hadoop/" ++
        FLINK_VERSION ++ "/flink-s3-fs-hadoop-" ++ FLINK_VERSION ++ ".jar",
      filename := "flink-s3-fs-hadoop-" ++ FLINK_VERSION ++ ".jar" },
    { url := MAVEN_REPO ++ "/org/apache/hadoop/hadoop-common/" ++
        HADOOP_VERSION ++ "/hadoop-common-" ++ HADOOP_VERSION ++ ".jar",
      filename := "hadoop-common-" ++ HADOOP_VERSION ++ ".jar" },
    { url := MAVEN_REPO ++ "/org/apache/flink/flink-shaded-hadoop-2-uber/2.8.3-10.0/flink-shaded-hadoop-2-uber-2.8.3-10.0.jar",
      filename := "flink-shaded-hadoop-2-uber-2.8.3-10.0.jar" },
    { url := MAVEN_REPO ++ "/org/apache/hadoop/hadoop-hdfs-client/" ++
        HADOOP_VERSION ++ "/hadoop-hdfs-client-" ++ HADOOP_VERSION ++ ".jar",
      filename := "hadoop-hdfs-client-" ++ HADOOP_VERSION ++ ".jar" },
    { url := MAVEN_REPO ++ "/org/apache/iceberg/iceberg-aws-bundle/" ++
        ICEBERG_VERSION ++ "/iceberg-aws-bundle-" ++ ICEBERG_VERSION ++ ".jar",
      filename := "iceberg-aws-bundle-" ++ ICEBERG_VERSION ++ ".jar" } ]

/-- Kind of filesystem node found at the destination path on invocation. -/
inductive NodeKind where
  | dir
  | file
  | absent
deriving Repr, DecidableEq

/-- The environment of one invocation: what the destination path currently is,
whether its parent permits creating it, the directory's current contents (when
it is a directory), and the network oracle. -/
structure Env where
  destNode : NodeKind
  mkdirCreatable : Bool
  files : FS
  net : Net

/-- POSIX mkdir -p at the destination path: succeeds if the path is already a
directory, creates it when absent and the parent permits, and fails when an
existing non-directory file occupies the path. -/
def mkdirP (node : NodeKind) (creatable : Bool) : Bool :=
  match node with
  | .dir => true
  | .absent => creatable
  | .file => false

/-- The files visible at the destination path before the run: the directory's
contents when it is a directory, nothing otherwise. -/
def destFiles (env : Env) : FS :=
  if env.destNode = .dir then env.files else []

/-- Whether a filename matches the pattern *.jar, that is, ends in the four
characters dot j a r, tested on the reversed character list. -/
def matchesJar (s : String) : Bool :=
  s.data.reverse.take 4 == ['r', 'a', 'j', '.']

/-- JAR_COUNT (script line 134): the post-run filesystem scan
find DEST_PATH -name "*.jar" -type f | wc -l, a function of the directory
contents alone. -/
def countJars (fs : FS) : Nat := (fs.filter (fun p => matchesJar p.1)).length

/-- Observable result of one invocation: exit status, where usage text went,
whether mkdir was attempted, total network transfers, the per-entry outcomes in
order, the final destination contents, and the JAR_COUNT report when the
script reached it. -/
structure Result where
  exitCode : Nat
  usageOnStdout : Bool
  usageOnStderr : Bool
  mkdirAttempted : Bool
  netCalls : Nat
  outcomes : List Outcome
  files : FS
  jarCount : Option Nat
deriving Repr, DecidableEq

/-- Script lines 93-142: run the six download_jar calls on the validated
destination, then compute JAR_COUNT by scanning it. Under set -e an aborted
loop exits with the failing status 1 before the count is reached. -/
def finishRun (net : Net) (fs0 : FS) (mk : Bool) : Result :=
  if (processEntries net manifest fs0).aborted then
    { exitCode := 1, usageOnStdout := false, usageOnStderr := false,
      mkdirAttempted := mk, netCalls := (processEntries net manifest fs0).netCalls,
      outcomes := (processEntries net manifest fs0).outcomes,
      files := (processEntries net manifest fs0).fs, jarCount := none }
  else
    { exitCode := 0, usageOnStdout := false, usageOnStderr := false,
      mkdirAttempted := mk, netCalls := (processEntries net manifest fs0).netCalls,
      outcomes := (processEntries net manifest fs0).outcomes,
      files := (processEntries net manifest fs0).fs,
      jarCount := some (countJars (processEntries net manifest fs0).fs) }

/-- Top level of download-jars.sh: the help check (line 10, exit 0), the
missing-argument check (line 29, usage echoed to standard output, exit 1), the
destination validation with mkdir -p (lines 52-63, exit 1 on failure), then
the downloads and the report. An absent first argument reads as the empty
string, which the -z test treats as missing. -/
def runScript (arg : Option String) (env : Env) : Result :=
  if arg.getD "" = "-h" ∨ arg.getD "" = "--help" then
    { exitCode := 0, usageOnStdout := true, usageOnStderr := false,
      mkdirAttempted := false, netCalls := 0, outcomes := [],
      files := destFiles env, jarCount := none }
  else if arg.getD "" = "" then
    { exitCode := 1, usageOnStdout := true, usageOnStderr := false,
      mkdirAttempted := false, netCalls := 0, outcomes := [],
      files := destFiles env, jarCount := none }
  else if env.destNode = .dir then
    finishRun env.net env.files false
  else if mkdirP env.destNode env.mkdirCreatable then
    finishRun env.net [] true
  else
    { exitCode := 1, usageOnStdout := false, usageOnStderr := false,
      mkdirAttempted := true, netCalls := 0, outcomes := [],
      files := destFiles env, jarCount := none }

/-- Replace every dot by a slash, the group-to-path step of the spec formula
group.replace(".", "/"). -/
def dotsToSlashes (g : String) : String :=
  ⟨g.data.map (fun c => if c = '.' then '/' else c)⟩

/-- Transcribed from the spec's URL formula (data-model section): url =
repositoryBaseUrl + "/" + group.replace(".", "/") + "/" + name + "/" + version
+ "/" + name + "-" + version + ".jar". -/
def specUrl (group artifact version : String) : String :=
  MAVEN_REPO ++ "/" ++ dotsToSlashes group ++ "/" ++ artifact ++ "/" ++ version ++
    "/" ++ artifact ++ "-" ++ version ++ ".jar"

/-- Transcribed from the spec: the destination filename is
name + "-" + version + ".jar". -/
def specFilename (artifact version : String) : String :=
  artifact ++ "-" ++ version ++ ".jar"

/-- Environment whose destination is a usable empty directory and whose
network fails every transfer. -/
def envFirstFails : Env :=
  { destNode := .dir, mkdirCreatable := true, files := [], net := fun _ => .failure "" }

/-- Environment whose destination is a usable empty directory and whose
network delivers every transfer. -/
def envAllOk : Env :=
  { destNode := .dir, mkdirCreatable := true, files := [], net := fun _ => .success "zz" }

/-- Environment whose destination directory already holds all six artifacts,
listed in the order a fresh full download leaves them. -/
def envPre : Env :=
  { destNode := .dir, mkdirCreatable := true,
    files :=
      [ ("iceberg-aws-bundle-1.9.1.jar", "zz"),
        ("hadoop-hdfs-client-3.3.4.jar", "zz"),
        ("flink-shaded-hadoop-2-uber-2.8.3-10.0.jar", "zz"),
        ("hadoop-common-3.3.4.jar", "zz"),
        ("flink-s3-fs-hadoop-1.20.0.jar", "zz"),
        ("iceberg-flink-runtime-1.20-1.9.1.jar", "zz") ],
    net := fun _ => .success "zz" }

/-- Environment whose destination path is absent and cannot be created. -/
def envNoCreate : Env :=
  { destNode := .absent, mkdirCreatable := false, files := [], net := fun _ => .success "zz" }

/-- Environment whose destination path is an existing regular file. -/
def envDestIsFile : Env :=
  { destNode := .file, mkdirCreatable := true, files := [], net := fun _ => .success "zz" }

theorem fsLookup_fsRemove_self (fs : FS) (k : String) :
    fsLookup (fsRemove fs k) k = none := by
  induction fs with
  | nil => rfl
  | cons p rest ih =>
    by_cases h : p.1 = k
    · simpa [fsRemove, h] using ih
    · simp [fsRemove, fsLookup, h, ih]

theorem fsLookup_fsRemove_ne (fs : FS) (k k' : String) (h : k' ≠ k) :
    fsLookup (fsRemove fs k) k' = fsLookup fs k' := by
  induction fs with
  | nil => rfl
  | cons p rest ih =>
    by_cases h1 : p.1 = k
    · have h2 : ¬ p.1 = k' := by rw [h1]; exact fun hc => h hc.symm
      simp [fsRemove, fsLookup, h1, h2, ih, Ne.symm h]
    · simp [fsRemove, fsLookup, h1, ih]

theorem fsLookup_fsWrite_self (fs : FS) (k v : String) :
    fsLookup (fsWrite fs k v) k = some v := by
  simp [fsWrite, fsLookup]

theorem fsLookup_fsWrite_ne (fs : FS) (k v k' : String) (h : k' ≠ k) :
    fsLookup (fsWrite fs k v) k' = fsLookup fs k' := by
  have h1 : ¬ k = k' := fun hc => h hc.symm
  simp [fsWrite, fsLookup, h1, fsLookup_fsRemove_ne fs k k' h]

theorem download_jar_preserves (net : Net) (fs : FS) (e : Entry) (k : String)
    (h : (fsLookup fs k).isSome = true) :
    (fsLookup (download_jar net fs e).fs k).isSome = true := by
  cases hl : fsLookup fs e.filename with
  | some c => simpa [download_jar, hl] using h
  | none =>
    by_cases hk : k = e.filename
    · rw [hk, hl] at h; simp at h
    · cases hn : net e.url with
      | success c =>
        simpa [download_jar, hl, hn, fsLookup_fsWrite_ne fs e.filename c k hk] using h
      | failure l =>
        simpa [download_jar, hl, hn,
          fsLookup_fsRemove_ne (fsWrite fs e.filename l) e.filename k hk,
          fsLookup_fsWrite_ne fs e.filename l k hk] using h

theorem download_jar_present (net : Net) (fs : FS) (e : Entry)
    (h : ¬ (download_jar net fs e).outcome = Outcome.failed) :
    (fsLookup (download_jar net fs e).fs e.filename).isSome = true := by
  cases hl : fsLookup fs e.filename with
  | some c => simp [download_jar, hl]
  | none =>
    cases hn : net e.url with
    | success c => simp [download_jar, hl, hn, fsLookup_fsWrite_self]
    | failure l => simp [download_jar, hl, hn] at h

theorem processEntries_preserves (net : Net) (es : List Entry) (fs : FS) (k : String)
    (h : (fsLookup fs k).isSome = true) :
    (fsLookup (processEntries net es fs).fs k).isSome = true := by
  induction es generalizing fs with
  | nil => simpa [processEntries] using h
  | cons e rest ih =>
    by_cases hf : (download_jar net fs e).outcome = Outcome.failed
    · simpa [processEntries, hf] using download_jar_preserves net fs e k h
    · simpa [processEntries, hf] using ih _ (download_jar_preserves net fs e k h)

theorem processEntries_mem_present (net : Net) (es : List Entry) (fs : FS)
    (h : (processEntries net es fs).aborted = false) :
    ∀ e ∈ es, (fsLookup (processEntries net es fs).fs e.filename).isSome = true := by
  induction es generalizing fs with
  | nil => intro e he; cases he
  | cons a rest ih =>
    intro e he
    by_cases hf : (download_jar net fs a).outcome = Outcome.failed
    · simp [processEntries, hf] at h
    · have h2 : (processEntries net rest (download_jar net fs a).fs).aborted = false := by
        simpa [processEntries, hf] using h
      rcases List.mem_cons.mp he with rfl | hm
      · have hp := download_jar_present net fs e hf
        simpa [processEntries, hf] using
          processEntries_preserves net rest (download_jar net fs e).fs e.filename hp
      · simpa [processEntries, hf] using ih _ h2 e hm

theorem processEntries_all_present (net : Net) (es : List Entry) (fs : FS)
    (h : ∀ e ∈ es, (fsLookup fs e.filename).isSome = true) :
    processEntries net es fs =
      { outcomes := es.map (fun _ => Outcome.alreadyPresent), fs := fs,
        netCalls := 0, aborted := false } := by
  induction es with
  | nil => rfl
  | cons a rest ih =>
    have ha := h a (List.mem_cons_self a rest)
    cases hl : fsLookup fs a.filename with
    | none => rw [hl] at ha; simp at ha
    | some c =>
      have hd : download_jar net fs a =
          { outcome := Outcome.alreadyPresent, fs := fs, netCalls := 0 } := by
        simp [download_jar, hl]
      have hrest := ih (fun e he => h e (List.mem_cons_of_mem a he))
      simp [processEntries, hd, hrest]

theorem finishRun_not_aborted (net : Net) (fs0 : FS) (mk : Bool)
    (h : (finishRun net fs0 mk).exitCode = 0) :
    (processEntries net manifest fs0).aborted = false := by
  cases hb : (processEntries net manifest fs0).aborted with
  | false => rfl
  | true => simp [finishRun, hb] at h

theorem finishRun_files (net : Net) (fs0 : FS) (mk : Bool) :
    (finishRun net fs0 mk).files = (processEntries net manifest fs0).fs := by
  unfold finishRun
  cases hb : (processEntries net manifest fs0).aborted <;> simp [hb]

theorem finishRun_all_present (net : Net) (fs0 : FS) (mk : Bool)
    (h : ∀ e ∈ manifest, (fsLookup fs0 e.filename).isSome = true) :
    finishRun net fs0 mk =
      { exitCode := 0, usageOnStdout := false, usageOnStderr := false,
        mkdirAttempted := mk, netCalls := 0,
        outcomes := manifest.map (fun _ => Outcome.alreadyPresent),
        files := fs0, jarCount := some (countJars fs0) } := by
  unfold finishRun
  rw [processEntries_all_present net manifest fs0 h]
  simp

theorem finishRun_idem (net : Net) (fs0 : FS) (mk mk2 : Bool)
    (h : (finishRun net fs0 mk).exitCode = 0) :
    finishRun net (finishRun net fs0 mk).files mk2 =
      { exitCode := 0, usageOnStdout := false, usageOnStderr := false,
        mkdirAttempted := mk2, netCalls := 0,
        outcomes := manifest.map (fun _ => Outcome.alreadyPresent),
        files := (finishRun net fs0 mk).files,
        jarCount := some (countJars (finishRun net fs0 mk).files) } := by
  apply finishRun_all_present
  rw [finishRun_files]
  exact processEntries_mem_present net manifest fs0 (finishRun_not_aborted net fs0 mk h)

theorem finishRun_jarCount (net : Net) (fs0 : FS) (mk : Bool)
    (h : (finishRun net fs0 mk).exitCode = 0) :
    (finishRun net fs0 mk).jarCount = some (countJars (finishRun net fs0 mk).files) := by
  have hna := finishRun_not_aborted net fs0 mk h
  unfold finishRun
  simp [hna]

theorem runScript_main (p : String) (env : Env)
    (hp1 : p ≠ "") (hp2 : p ≠ "-h") (hp3 : p ≠ "--help") :
    runScript (some p) env =
      if env.destNode = NodeKind.dir then finishRun env.net env.files false
      else if mkdirP env.destNode env.mkdirCreatable then finishRun env.net [] true
      else { exitCode := 1, usageOnStdout := false, usageOnStderr := false,
             mkdirAttempted := true, netCalls := 0, outcomes := [],
             files := destFiles env, jarCount := none } := by
  unfold runScript
  simp [hp1, hp2, hp3]

theorem runScript_dir_env (p : String) (net : Net) (mk : Bool) (fs : FS)
    (hp1 : p ≠ "") (hp2 : p ≠ "-h") (hp3 : p ≠ "--help") :
    runScript (some p)
        { destNode := NodeKind.dir, mkdirCreatable := mk, files := fs, net := net } =
      finishRun net fs false := by
  unfold runScript
  simp [hp1, hp2, hp3]

/-- C1: the claim says a transport error on one entry lets provisioning
continue to the next entry and the run still exits 0. The code does the
opposite: with a usable empty destination directory and a network that fails
the first transfer, set -e aborts the script at the first failed download_jar,
so the run exits 1 after processing a single entry with one attempted
transfer, and the remaining five entries are never reached. -/
theorem c1_set_e_aborts_on_first_failure :
    (runScript (some "/opt/flink/lib") envFirstFails).exitCode = 1 ∧
    (runScript (some "/opt/flink/lib") envFirstFails).outcomes = [Outcome.failed] ∧
    (runScript (some "/opt/flink/lib") envFirstFails).netCalls = 1 := by
  decide

/-- C2: whenever download_jar records outcome Failed, no file remains at the
entry's destination path: the output file wget opened, together with any
leftover bytes, is removed by rm -f before the failing status is returned. -/
theorem c2_failed_leaves_no_file (net : Net) (fs : FS) (e : Entry)
    (h : (download_jar net fs e).outcome = Outcome.failed) :
    fsLookup (download_jar net fs e).fs e.filename = none := by
  cases hl : fsLookup fs e.filename with
  | some c => simp [download_jar, hl] at h
  | none =>
    cases hn : net e.url with
    | success c => simp [download_jar, hl, hn] at h
    | failure l => simp [download_jar, hl, hn, fsLookup_fsRemove_self]

theorem c2_witness :
    fsLookup (download_jar (fun _ => NetResult.failure "xx") []
      { url := "u", filename := "f.jar" }).fs "f.jar" = none :=
  c2_failed_leaves_no_file (fun _ => NetResult.failure "xx") []
    { url := "u", filename := "f.jar" } (by decide)

/-- C3: idempotence. If a run of the script on some destination-path argument
completes with exit code 0, then a second run with the same argument and the
same network, against the destination directory the first run left behind,
records outcome AlreadyPresent for every manifest entry and performs zero
network calls. -/
theorem c3_second_run_idempotent (p : String) (env : Env)
    (hp1 : p ≠ "") (hp2 : p ≠ "-h") (hp3 : p ≠ "--help")
    (h0 : (runScript (some p) env).exitCode = 0) :
    (∀ o ∈ (runScript (some p)
        { destNode := NodeKind.dir, mkdirCreatable := env.mkdirCreatable,
          files := (runScript (some p) env).files, net := env.net }).outcomes,
      o = Outcome.alreadyPresent) ∧
    (runScript (some p)
        { destNode := NodeKind.dir, mkdirCreatable := env.mkdirCreatable,
          files := (runScript (some p) env).files, net := env.net }).netCalls = 0 := by
  rw [runScript_dir_env p env.net env.mkdirCreatable ((runScript (some p) env).files)
    hp1 hp2 hp3]
  rw [runScript_main p env hp1 hp2 hp3] at h0 ⊢
  by_cases hdd : env.destNode = NodeKind.dir
  · rw [if_pos hdd] at h0 ⊢
    rw [finishRun_idem env.net env.files false false h0]
    refine ⟨fun o ho => ?_, rfl⟩
    rcases List.mem_map.mp ho with ⟨e, he, rfl⟩
    rfl
  · rw [if_neg hdd] at h0 ⊢
    by_cases hmk : mkdirP env.destNode env.mkdirCreatable = true
    · rw [if_pos hmk] at h0 ⊢
      rw [finishRun_idem env.net [] true false h0]
      refine ⟨fun o ho => ?_, rfl⟩
      rcases List.mem_map.mp ho with ⟨e, he, rfl⟩
      rfl
    · rw [if_neg hmk] at h0
      simp at h0

theorem c3_witness :
    (runScript (some "/opt/jars")
        { destNode := NodeKind.dir, mkdirCreatable := envAllOk.mkdirCreatable,
          files := (runScript (some "/opt/jars") envAllOk).files,
          net := envAllOk.net }).netCalls = 0 :=
  (c3_second_run_idempotent "/opt/jars" envAllOk (by decide) (by decide) (by decide)
    (by decide)).2

/-- C4: if a file already exists at the entry's destination path when the
entry is processed, download_jar records AlreadyPresent, performs no network
call, leaves the whole directory unchanged, and in particular the existing
file keeps its contents, whatever they are. -/
theorem c4_already_present_skips (net : Net) (fs : FS) (e : Entry) (c : String)
    (h : fsLookup fs e.filename = some c) :
    download_jar net fs e =
      { outcome := Outcome.alreadyPresent, fs := fs, netCalls := 0 } ∧
    fsLookup (download_jar net fs e).fs e.filename = some c := by
  have hd : download_jar net fs e =
      { outcome := Outcome.alreadyPresent, fs := fs, netCalls := 0 } := by
    simp [download_jar, h]
  exact ⟨hd, by rw [hd]; exact h⟩

theorem c4_witness :
    download_jar (fun _ => NetResult.success "yy") [("a.jar", "AA")]
      { url := "u", filename := "a.jar" } =
      { outcome := Outcome.alreadyPresent, fs := [("a.jar", "AA")], netCalls := 0 } ∧
    fsLookup (download_jar (fun _ => NetResult.success "yy") [("a.jar", "AA")]
      { url := "u", filename := "a.jar" }).fs "a.jar" = some "AA" :=
  c4_already_present_skips (fun _ => NetResult.success "yy") [("a.jar", "AA")]
    { url := "u", filename := "a.jar" } "AA" (by decide)

/-- C5: with an absent destination directory the script attempts recursive
creation before any entry is processed; if creation fails the run ends with
exit 1, zero downloads and no outcomes, and if creation succeeds processing
proceeds as the normal download run on the newly created empty directory. -/
theorem c5_destination_creation (p : String) (env : Env)
    (hp1 : p ≠ "") (hp2 : p ≠ "-h") (hp3 : p ≠ "--help")
    (hd : env.destNode = NodeKind.absent) :
    (env.mkdirCreatable = false →
      (runScript (some p) env).exitCode = 1 ∧
      (runScript (some p) env).netCalls = 0 ∧
      (runScript (some p) env).outcomes = [] ∧
      (runScript (some p) env).mkdirAttempted = true) ∧
    (env.mkdirCreatable = true →
      runScript (some p) env = finishRun env.net [] true) := by
  rw [runScript_main p env hp1 hp2 hp3]
  constructor <;> intro hc <;> simp [hd, hc, mkdirP]

theorem c5_witness :
    (runScript (some "/root/nope") envNoCreate).exitCode = 1 ∧
    (runScript (some "/root/nope") envNoCreate).netCalls = 0 ∧
    (runScript (some "/root/nope") envNoCreate).outcomes = [] ∧
    (runScript (some "/root/nope") envNoCreate).mkdirAttempted = true :=
  (c5_destination_creation "/root/nope" envNoCreate (by decide) (by decide) (by decide)
    rfl).1 rfl

/-- C6 counterexample: the claim says the script computes a count of results
by outcome as well as the physical file count. It computes only the latter:
a run that downloads all six artifacts and a run that finds all six already
present expose the same JAR_COUNT and the same directory listing although
their outcome tallies differ entirely, so no per-outcome count is part of
what the report computes. -/
theorem c6_report_reveals_no_outcome_counts :
    (runScript (some "/opt/flink/lib") envAllOk).jarCount =
      (runScript (some "/opt/flink/lib") envPre).jarCount ∧
    (runScript (some "/opt/flink/lib") envAllOk).files =
      (runScript (some "/opt/flink/lib") envPre).files ∧
    (runScript (some "/opt/flink/lib") envAllOk).outcomes ≠
      (runScript (some "/opt/flink/lib") envPre).outcomes := by
  decide

/-- C6 amended: after a run that completes with exit 0, the script computes
and exposes the total count of jar files physically present at the
destination, obtained by scanning the final directory contents, a function of
the directory alone and not of the in-memory outcomes; no count of results by
outcome is computed. -/
theorem c6_jar_count_is_fs_scan (p : String) (env : Env)
    (hp1 : p ≠ "") (hp2 : p ≠ "-h") (hp3 : p ≠ "--help")
    (h0 : (runScript (some p) env).exitCode = 0) :
    (runScript (some p) env).jarCount =
      some (countJars (runScript (some p) env).files) := by
  rw [runScript_main p env hp1 hp2 hp3] at h0 ⊢
  by_cases hdd : env.destNode = NodeKind.dir
  · rw [if_pos hdd] at h0 ⊢
    exact finishRun_jarCount env.net env.files false h0
  · rw [if_neg hdd] at h0 ⊢
    by_cases hmk : mkdirP env.destNode env.mkdirCreatable = true
    · rw [if_pos hmk] at h0 ⊢
      exact finishRun_jarCount env.net [] true h0
    · rw [if_neg hmk] at h0
      simp at h0

theorem c6_witness :
    (runScript (some "/opt/lib6") envPre).jarCount =
      some (countJars (runScript (some "/opt/lib6") envPre).files) :=
  c6_jar_count_is_fs_scan "/opt/lib6" envPre (by decide) (by decide) (by decide)
    (by decide)

/-- C7 counterexample: invoked with no argument the script exits 1, but the
usage text is written by plain echo to standard output, not to standard error
as the claim states. -/
theorem c7_usage_goes_to_stdout_not_stderr :
    (runScript none envAllOk).usageOnStderr = false ∧
    (runScript none envAllOk).usageOnStdout = true ∧
    (runScript none envAllOk).exitCode = 1 := by
  decide

/-- C7 amended: with no destination-path argument the script prints usage to
standard output and exits 1, attempting no directory creation, no network
transfer, and no change to any file. -/
theorem c7_missing_argument_usage_stdout (env : Env) :
    runScript none env =
      { exitCode := 1, usageOnStdout := true, usageOnStderr := false,
        mkdirAttempted := false, netCalls := 0, outcomes := [],
        files := destFiles env, jarCount := none } := rfl

/-- C8: each of the six manifest entries has exactly the URL given by the
spec formula repositoryBaseUrl + "/" + group with dots replaced by slashes +
"/" + name + "/" + version + "/" + name + "-" + version + ".jar" over its
(group, name, version) coordinates, and its destination filename is
name + "-" + version + ".jar", the URL's final path segment. -/
theorem c8_manifest_matches_spec_formula :
    manifest =
      [ { url := specUrl "org.apache.iceberg" "iceberg-flink-runtime-1.20" ICEBERG_VERSION,
          filename := specFilename "iceberg-flink-runtime-1.20" ICEBERG_VERSION },
        { url := specUrl "org.apache.flink" "flink-s3-fs-hadoop" FLINK_VERSION,
          filename := specFilename "flink-s3-fs-hadoop" FLINK_VERSION },
        { url := specUrl "org.apache.hadoop" "hadoop-common" HADOOP_VERSION,
          filename := specFilename "hadoop-common" HADOOP_VERSION },
        { url := specUrl "org.apache.flink" "flink-shaded-hadoop-2-uber" "2.8.3-10.0",
          filename := specFilename "flink-shaded-hadoop-2-uber" "2.8.3-10.0" },
        { url := specUrl "org.apache.hadoop" "hadoop-hdfs-client" HADOOP_VERSION,
          filename := specFilename "hadoop-hdfs-client" HADOOP_VERSION },
        { url := specUrl "org.apache.iceberg" "iceberg-aws-bundle" ICEBERG_VERSION,
          filename := specFilename "iceberg-aws-bundle" ICEBERG_VERSION } ] := by
  decide

/-- C9: a -h or --help first argument prints usage to standard output and
exits 0 with no side effects: no directory creation attempt, no network
transfer, no outcome recorded, and the destination untouched. -/
theorem c9_help_flag_no_side_effects (env : Env) :
    runScript (some "-h") env =
      { exitCode := 0, usageOnStdout := true, usageOnStderr := false,
        mkdirAttempted := false, netCalls := 0, outcomes := [],
        files := destFiles env, jarCount := none } ∧
    runScript (some "--help") env =
      { exitCode := 0, usageOnStdout := true, usageOnStderr := false,
        mkdirAttempted := false, netCalls := 0, outcomes := [],
        files := destFiles env, jarCount := none } :=
  ⟨rfl, rfl⟩

/-- C10: when the destination path names an existing regular file, the
directory test fails, the recursive mkdir on that path fails, and the script
exits 1 having attempted the creation but no download. -/
theorem c10_destination_is_regular_file (p : String) (env : Env)
    (hp1 : p ≠ "") (hp2 : p ≠ "-h") (hp3 : p ≠ "--help")
    (hd : env.destNode = NodeKind.file) :
    (runScript (some p) env).exitCode = 1 ∧
    (runScript (some p) env).netCalls = 0 ∧
    (runScript (some p) env).outcomes = [] ∧
    (runScript (some p) env).mkdirAttempted = true := by
  rw [runScript_main p env hp1 hp2 hp3]
  simp [hd, mkdirP]

theorem c10_witness :
    (runScript (some "/etc/hostname") envDestIsFile).exitCode = 1 ∧
    (runScript (some "/etc/hostname") envDestIsFile).netCalls = 0 ∧
    (runScript (some "/etc/hostname") envDestIsFile).outcomes = [] ∧
    (runScript (some "/etc/hostname") envDestIsFile).mkdirAttempted = true :=
  c10_destination_is_regular_file "/etc/hostname" envDestIsFile (by decide) (by decide)
    (by decide) rfl

end DownloadJars
